import Mathlib

/-!
# Aline-Admin: shallow embedding of the entity-form components

This file embeds, in Lean 4, the client-side logic of the Aline-Admin
dashboard source files:

* `ProductForm` (validation schema, mode selection, submit/delete handlers,
  rendered controls),
* `CategoryForm` (same structure for categories),
* the colors table `CellAction` row delete,
* `MainNav` (route table with active-link derivation).

Handlers are modelled as pure functions from their parameters and the network
outcome of the awaited request to the list of observable events they emit, in
source order.  UI state (`loading`, modal `open`) is replayed from those
events.
-/

namespace AlineAdmin

/-- HTTP method of a request issued through axios. -/
inductive Method
  | post
  | patch
  | delete
deriving DecidableEq, Repr

/-- Outcome of the single awaited network call inside a handler's `try`
block: either the promise resolves (`success`) or it rejects and control
jumps to the `catch` block (`failure`). -/
inductive Outcome
  | success
  | failure
deriving DecidableEq, Repr

/-- An image record as used by the product form (`{ url: string }`). -/
structure Image where
  url : String
deriving DecidableEq, Repr

/-- Parsed values of the category form (`formSchema` in the category file:
`name: z.string().min(1), billboardId: z.string().min(1)`). -/
structure CategoryFormValues where
  name : String
  billboardId : String
deriving DecidableEq, Repr

/-- Parsed values of the product form (`ProductFormValues = z.infer<typeof
formSchema>`).  `price` is the coerced number; `isFeatured`/`isArchived` are
`boolean | undefined` after `.default(false).optional()`. -/
structure ProductFormValues where
  name : String
  images : List Image
  price : ℚ
  categoryId : String
  colorId : String
  sizeId : String
  isFeatured : Option Bool
  isArchived : Option Bool
deriving DecidableEq, Repr

/-- Request body, tagged by which form produced it. -/
inductive Body
  | empty
  | categoryBody (v : CategoryFormValues)
  | productBody (v : ProductFormValues)
deriving DecidableEq, Repr

/-- Observable events emitted by a handler, in program order:
state setters (`setLoading`, `setOpen`), the axios request, router effects
(`refresh`, `push`), toasts, and — for frame reasoning — a field-state
mutation event `setField` that none of the handlers in the source ever
emits. -/
inductive Event
  | setLoading (b : Bool)
  | setOpen (b : Bool)
  | request (m : Method) (url : String) (body : Body)
  | refresh
  | push (url : String)
  | toastSuccess (msg : String)
  | toastError (msg : String)
  | setField (name : String)
deriving DecidableEq, Repr

/-- Is this event a `router.push` navigation? -/
def Event.isPush : Event → Bool
  | .push _ => true
  | _ => false

/-- Is this event a network request? -/
def Event.isRequest : Event → Bool
  | .request _ _ _ => true
  | _ => false

/-- Is this event an error toast? -/
def Event.isErrorToast : Event → Bool
  | .toastError _ => true
  | _ => false

/-- Is this event a field-state mutation? -/
def Event.isSetField : Event → Bool
  | .setField _ => true
  | _ => false

/-- The generic failure notification used by the submit handlers (and the
product form delete handler): `"Ada sesuatu yang salah"`. -/
def genericErrorMsg : String := "Ada sesuatu yang salah"

/-- Category delete failure message (category form `onDelete` catch). -/
def categoryDeleteDepMsg : String :=
  "Pastikan kamu sudah menghapus semua produk yang menggunakan kategori ini"

/-- Color delete failure message (colors `CellAction.onDelete` catch). -/
def colorDeleteDepMsg : String :=
  "Pastikan anda sudah menghapus semua Obat yang menggunakan Tipe Obat ini."

/-- A Prisma `Product` record (fields used by the form). -/
structure Product where
  id : String
  name : String
  price : ℚ
  categoryId : String
  colorId : String
  sizeId : String
  isFeatured : Bool
  isArchived : Bool
deriving DecidableEq, Repr

/-- `Product & { images: Image[] }` — the `initialData` shape of the
product form. -/
structure ProductWithImages extends Product where
  images : List Image
deriving DecidableEq, Repr

/-- A Prisma `Category` record (fields used by the form). -/
structure Category where
  id : String
  name : String
  billboardId : String
deriving DecidableEq, Repr

/-! ## ProductForm: labels, defaults, handlers -/

/-- `title = initialData ? 'Edit Produk' : 'Buat Produk Baru'`. -/
def productTitle (initialData : Option ProductWithImages) : String :=
  if initialData.isSome then "Edit Produk" else "Buat Produk Baru"

/-- `description = initialData ? 'Edit produk' : 'Buat Produk Baru'`. -/
def productDescription (initialData : Option ProductWithImages) : String :=
  if initialData.isSome then "Edit produk" else "Buat Produk Baru"

/-- `toastMessage = initialData ? 'Produk di Perbarui.' : 'Produk berhasil dibuat'`. -/
def productToastMessage (initialData : Option ProductWithImages) : String :=
  if initialData.isSome then "Produk di Perbarui." else "Produk berhasil dibuat"

/-- `action = initialData ? "Simpan Perubahan" : "Buat Baru"`. -/
def productAction (initialData : Option ProductWithImages) : String :=
  if initialData.isSome then "Simpan Perubahan" else "Buat Baru"

/-- The `defaultValues` passed to `useForm`: spread of `initialData` with
`price: parseFloat(String(initialData.price))`, or the empty-record
defaults when `initialData` is null. -/
def productDefaultValues (initialData : Option ProductWithImages) :
    ProductFormValues :=
  match initialData with
  | some d =>
      { name := d.name, images := d.images, price := d.price,
        categoryId := d.categoryId, colorId := d.colorId, sizeId := d.sizeId,
        isFeatured := some d.isFeatured, isArchived := some d.isArchived }
  | none =>
      { name := "", images := [], price := 0,
        categoryId := "", colorId := "", sizeId := "",
        isFeatured := some false, isArchived := some false }

/-- Events of `ProductForm.onSubmit`, in source order: `setLoading(true)`;
PATCH to the record URL when `initialData` is present, otherwise POST to the
collection URL; on success `router.refresh()`, `router.push`, success toast;
on failure the generic error toast; `finally setLoading(false)`. -/
def productSubmitEvents (storeId productId : String)
    (initialData : Option ProductWithImages) (data : ProductFormValues)
    (o : Outcome) : List Event :=
  [.setLoading true] ++
  [(match initialData with
    | some _ =>
        .request .patch ("/api/" ++ storeId ++ "/products/" ++ productId)
          (.productBody data)
    | none =>
        .request .post ("/api/" ++ storeId ++ "/products")
          (.productBody data))] ++
  (match o with
   | .success =>
       [.refresh, .push ("/" ++ storeId ++ "/products"),
        .toastSuccess (productToastMessage initialData)]
   | .failure => [.toastError genericErrorMsg]) ++
  [.setLoading false]

/-- Events of `ProductForm.onDelete`: DELETE to the record URL; on success
refresh, push to the list, success toast; on failure the generic error toast
(`'Ada sesuatu yang salah'`); `finally setLoading(false); setOpen(false)`. -/
def productDeleteEvents (storeId productId : String) (o : Outcome) :
    List Event :=
  [.setLoading true,
   .request .delete ("/api/" ++ storeId ++ "/products/" ++ productId) .empty] ++
  (match o with
   | .success =>
       [.refresh, .push ("/" ++ storeId ++ "/products"),
        .toastSuccess "Produk dihapus"]
   | .failure => [.toastError genericErrorMsg]) ++
  [.setLoading false, .setOpen false]

/-! ## CategoryForm: labels, defaults, handlers -/

/-- `title = initialData ? 'Edit Kategori' : 'Buat Kategori'`. -/
def categoryTitle (initialData : Option Category) : String :=
  if initialData.isSome then "Edit Kategori" else "Buat Kategori"

/-- `description = initialData ? 'Edit Kategori' : 'Buat kategori yang baru'`. -/
def categoryDescription (initialData : Option Category) : String :=
  if initialData.isSome then "Edit Kategori" else "Buat kategori yang baru"

/-- `toastMessage = initialData ? 'Kategori diperbarui.' : 'Kategori berhasil dibuat'`. -/
def categoryToastMessage (initialData : Option Category) : String :=
  if initialData.isSome then "Kategori diperbarui." else "Kategori berhasil dibuat"

/-- `action = initialData ? "Simpan perubahan" : "Buat Baru"`. -/
def categoryAction (initialData : Option Category) : String :=
  if initialData.isSome then "Simpan perubahan" else "Buat Baru"

/-- `defaultValues: initialData || { name: '', billboardId: '' }`. -/
def categoryDefaultValues (initialData : Option Category) :
    CategoryFormValues :=
  match initialData with
  | some d => { name := d.name, billboardId := d.billboardId }
  | none => { name := "", billboardId := "" }

/-- Events of `CategoryForm.onSubmit` (same shape as the product form, with
category URLs, toasts, and body). -/
def categorySubmitEvents (storeId categoryId : String)
    (initialData : Option Category) (data : CategoryFormValues)
    (o : Outcome) : List Event :=
  [.setLoading true] ++
  [(match initialData with
    | some _ =>
        .request .patch ("/api/" ++ storeId ++ "/categories/" ++ categoryId)
          (.categoryBody data)
    | none =>
        .request .post ("/api/" ++ storeId ++ "/categories")
          (.categoryBody data))] ++
  (match o with
   | .success =>
       [.refresh, .push ("/" ++ storeId ++ "/categories"),
        .toastSuccess (categoryToastMessage initialData)]
   | .failure => [.toastError genericErrorMsg]) ++
  [.setLoading false]

/-- Events of `CategoryForm.onDelete`: on failure the domain-specific
message asking to remove dependent products first. -/
def categoryDeleteEvents (storeId categoryId : String) (o : Outcome) :
    List Event :=
  [.setLoading true,
   .request .delete ("/api/" ++ storeId ++ "/categories/" ++ categoryId)
     .empty] ++
  (match o with
   | .success =>
       [.refresh, .push ("/" ++ storeId ++ "/categories"),
        .toastSuccess "Kategori dihapus."]
   | .failure => [.toastError categoryDeleteDepMsg]) ++
  [.setLoading false, .setOpen false]

/-! ## Colors CellAction row delete -/

/-- Events of the colors `CellAction.onDelete`: DELETE to the color record
URL; on success only `router.refresh()` and a success toast — no
`router.push`; on failure the domain-specific message; `finally
setLoading(false); setOpen(false)`. -/
def colorCellDeleteEvents (storeId colorId : String) (o : Outcome) :
    List Event :=
  [.setLoading true,
   .request .delete ("/api/" ++ storeId ++ "/colors/" ++ colorId) .empty] ++
  (match o with
   | .success => [.refresh, .toastSuccess "Tipe Obat Dihapus."]
   | .failure => [.toastError colorDeleteDepMsg]) ++
  [.setLoading false, .setOpen false]

/-! ## UI state replay -/

/-- The two `useState` flags of a form component. -/
structure FormState where
  loading : Bool
  isOpen : Bool
deriving DecidableEq, Repr

/-- Apply one event to the component state ( only the state setters act ). -/
def applyEvent (st : FormState) : Event → FormState
  | .setLoading b => { st with loading := b }
  | .setOpen b => { st with isOpen := b }
  | _ => st

/-- Replay a handler's event list over the component state. -/
def runEvents (st : FormState) (es : List Event) : FormState :=
  es.foldl applyEvent st

/-! ## Product form validation schema

`formSchema = z.object({ name: z.string().min(1), images:
z.object({url: z.string()}).array(), price: z.coerce.number().min(1),
categoryId: z.string().min(1), colorId: z.string().min(1), sizeId:
z.string().min(1), isFeatured: z.boolean().default(false).optional(),
isArchived: z.boolean().default(false).optional() })`.

The raw candidate input abstracts the price field by the result of the
JavaScript numeric coercion `Number(input)`: `some q` when it yields the
number `q`, `none` when it yields `NaN` (which `z.coerce.number()`
rejects). -/

/-- Raw candidate input of the product form, before zod validation. -/
structure RawProductInput where
  name : String
  images : List Image
  price : Option ℚ
  categoryId : String
  colorId : String
  sizeId : String
  isFeatured : Option Bool
  isArchived : Option Bool
deriving DecidableEq, Repr

/-- The price rule `z.coerce.number().min(1)`: the coercion must produce a
number (not NaN) that is at least 1. -/
def priceCheck (price : Option ℚ) : Bool :=
  match price with
  | none => false
  | some q => decide (1 ≤ q)

/-- Names of the fields of `formSchema` that fail validation, in schema
order.  `images` has no constraint beyond its element shape (no minimum
length), and `isFeatured`/`isArchived` are optional booleans, so none of
those three ever contributes an error. -/
def formSchemaErrors (i : RawProductInput) : List String :=
  (if 1 ≤ i.name.length then [] else ["name"]) ++
  (if priceCheck i.price then [] else ["price"]) ++
  (if 1 ≤ i.categoryId.length then [] else ["categoryId"]) ++
  (if 1 ≤ i.colorId.length then [] else ["colorId"]) ++
  (if 1 ≤ i.sizeId.length then [] else ["sizeId"])

/-- Successful zod parse: all rules pass and the coerced price is
substituted for the raw field. -/
def formSchemaParse (i : RawProductInput) : Option ProductFormValues :=
  match i.price, formSchemaErrors i with
  | some q, [] =>
      some { name := i.name, images := i.images, price := q,
             categoryId := i.categoryId, colorId := i.colorId,
             sizeId := i.sizeId, isFeatured := i.isFeatured,
             isArchived := i.isArchived }
  | _, _ => none

/-! ## Category form validation schema -/

/-- Raw candidate input of the category form. -/
structure RawCategoryInput where
  name : String
  billboardId : String
deriving DecidableEq, Repr

/-- Failing fields of the category `formSchema`
(`name: z.string().min(1), billboardId: z.string().min(1)`). -/
def categorySchemaErrors (i : RawCategoryInput) : List String :=
  (if 1 ≤ i.name.length then [] else ["name"]) ++
  (if 1 ≤ i.billboardId.length then [] else ["billboardId"])

/-- Successful zod parse of the category form input. -/
def categorySchemaParse (i : RawCategoryInput) : Option CategoryFormValues :=
  match categorySchemaErrors i with
  | [] => some { name := i.name, billboardId := i.billboardId }
  | _ => none

/-- Result of a submit attempt: either validation blocked it with
field-level messages, or the handler ran and emitted events. -/
inductive SubmitResult
  | blocked (fieldErrors : List String)
  | ran (events : List Event)
deriving DecidableEq, Repr

/-- Modelled from the spec: the `handleSubmit` wrapper of the form library
(react-hook-form with `zodResolver(formSchema)`) is not part of this
repository's source; per the spec, client-side validation runs before any
network call, its failure blocks submission and surfaces field-level
messages, and it never reaches the network layer.  Product form variant. -/
def handleSubmitProduct (i : RawProductInput) (storeId productId : String)
    (initialData : Option ProductWithImages) (o : Outcome) : SubmitResult :=
  match formSchemaParse i with
  | some v => .ran (productSubmitEvents storeId productId initialData v o)
  | none => .blocked (formSchemaErrors i)

/-- Modelled from the spec: same `handleSubmit` wrapper for the category
form (see `handleSubmitProduct`). -/
def handleSubmitCategory (i : RawCategoryInput) (storeId categoryId : String)
    (initialData : Option Category) (o : Outcome) : SubmitResult :=
  match categorySchemaParse i with
  | some v => .ran (categorySubmitEvents storeId categoryId initialData v o)
  | none => .blocked (categorySchemaErrors i)

/-! ## Rendered controls and their disabled bindings -/

/-- A rendered interactive control: whether the source gives it a
`disabled={loading}` binding, and whether activating it can start a
create/update/delete request (only the submit button does directly: the
trash button merely opens the confirmation modal, and inputs, selects and
checkboxes only mutate field state). -/
structure Control where
  cname : String
  disabledWhenLoading : Bool
  firesRequest : Bool
deriving DecidableEq, Repr

/-- Whether a control is disabled at the given value of the loading flag:
`disabled={loading}` when bound, otherwise never disabled. -/
def controlDisabled (c : Control) (loading : Bool) : Bool :=
  c.disabledWhenLoading && loading

/-- Controls rendered by `ProductForm`, in source order.  `ImageUpload`,
`Input`s and `Select`s all carry `disabled={loading}`; the two `Checkbox`
controls (`isFeatured`, `isArchived`) carry no disabled binding; the trash
button and the submit button carry `disabled={loading}`. -/
def productFormControls : List Control :=
  [ ⟨"deleteButton", true, false⟩,
    ⟨"imageUpload", true, false⟩,
    ⟨"nameInput", true, false⟩,
    ⟨"priceInput", true, false⟩,
    ⟨"categorySelect", true, false⟩,
    ⟨"sizeSelect", true, false⟩,
    ⟨"colorSelect", true, false⟩,
    ⟨"isFeaturedCheckbox", false, false⟩,
    ⟨"isArchivedCheckbox", false, false⟩,
    ⟨"submitButton", true, true⟩ ]

/-- Controls rendered by `CategoryForm`, in source order: every one carries
`disabled={loading}`. -/
def categoryFormControls : List Control :=
  [ ⟨"deleteButton", true, false⟩,
    ⟨"nameInput", true, false⟩,
    ⟨"billboardSelect", true, false⟩,
    ⟨"submitButton", true, true⟩ ]

/-! ## MainNav route table -/

/-- One entry of the `routes` array in `MainNav`. -/
structure Route where
  href : String
  label : String
  active : Bool
deriving DecidableEq, Repr

/-- The `routes` array of `MainNav`: eight fixed routes scoped under the
store id, each `active` exactly when `pathname` equals its `href`. -/
def mainNavRoutes (storeId pathname : String) : List Route :=
  [ { href := "/" ++ storeId, label := "Overview",
      active := pathname == "/" ++ storeId },
    { href := "/" ++ storeId ++ "/billboards", label := "Papan Iklan",
      active := pathname == "/" ++ storeId ++ "/billboards" },
    { href := "/" ++ storeId ++ "/categories", label := "Kategori",
      active := pathname == "/" ++ storeId ++ "/categories" },
    { href := "/" ++ storeId ++ "/sizes", label := "Bentuk Obat",
      active := pathname == "/" ++ storeId ++ "/sizes" },
    { href := "/" ++ storeId ++ "/colors", label := "Tipe Obat",
      active := pathname == "/" ++ storeId ++ "/colors" },
    { href := "/" ++ storeId ++ "/products", label := "Produk",
      active := pathname == "/" ++ storeId ++ "/products" },
    { href := "/" ++ storeId ++ "/orders", label := "Pesanan",
      active := pathname == "/" ++ storeId ++ "/orders" },
    { href := "/" ++ storeId ++ "/settings", label := "Setting",
      active := pathname == "/" ++ storeId ++ "/settings" } ]

/-- Number of routes rendered with the active style. -/
def activeCount (storeId pathname : String) : Nat :=
  ((mainNavRoutes storeId pathname).filter (fun r => r.active)).length

/-! ## Sample records used by concrete witnesses -/

/-- A sample product record. -/
def sampleProduct : ProductWithImages :=
  { id := "p1", name := "Obat A", price := 10, categoryId := "c1",
    colorId := "k1", sizeId := "z1", isFeatured := false, isArchived := false,
    images := [] }

/-- A second sample product record with different field values. -/
def sampleProduct2 : ProductWithImages :=
  { id := "p2", name := "Obat B", price := 25, categoryId := "c2",
    colorId := "k2", sizeId := "z2", isFeatured := true, isArchived := false,
    images := [⟨"https://img/1.png"⟩] }

/-! ## Helper lemmas -/

/-- Left cancellation for string concatenation. -/
theorem strCancel {s a b : String} (h : s ++ a = s ++ b) : a = b := by
  have h2 := congrArg String.data h
  simp [String.data_append] at h2
  exact String.ext h2

/-- Two distinct suffixes under the same store prefix give distinct hrefs. -/
theorem sufNe (a b : String) (hab : a ≠ b) (s : String) :
    "/" ++ s ++ a ≠ "/" ++ s ++ b := fun h => hab (strCancel h)

/-- The bare store href differs from any suffixed href. -/
theorem sufNe0 (b : String) (hb : b ≠ "") (s : String) :
    "/" ++ s ≠ "/" ++ s ++ b := by
  intro h
  have h2 : "/" ++ s ++ "" = "/" ++ s ++ b := by simpa using h
  exact hb (strCancel h2).symm

/-- The eight hrefs of the navigation menu are pairwise distinct. -/
theorem hrefs_nodup (s p : String) :
    ((mainNavRoutes s p).map Route.href).Nodup := by
  simp only [mainNavRoutes, List.map, List.nodup_cons, List.mem_cons,
    List.not_mem_nil, or_false, not_or, List.nodup_nil, not_false_iff,
    and_true]
  refine ⟨⟨?_,?_,?_,?_,?_,?_,?_⟩, ⟨?_,?_,?_,?_,?_,?_⟩, ⟨?_,?_,?_,?_,?_⟩,
    ⟨?_,?_,?_,?_⟩, ⟨?_,?_,?_⟩, ⟨?_,?_⟩, ?_⟩ <;>
    first
      | exact sufNe0 _ (by decide) s
      | exact sufNe _ _ (by decide) s

/-- The number of active routes is the number of occurrences of the
pathname among the hrefs. -/
theorem activeCount_eq (s p : String) :
    activeCount s p = ((mainNavRoutes s p).map Route.href).count p := by
  have h1 : (mainNavRoutes s p).filter (fun r => r.active)
      = (mainNavRoutes s p).filter (fun r => p == r.href) := rfl
  have h2 : (fun (r : Route) => p == r.href) = (fun r => r.href == p) := by
    funext r
    simp [Bool.beq_comm]
  unfold activeCount
  rw [h1, h2, ← List.countP_eq_length_filter, List.count, List.countP_map]
  rfl

/-- At most one route is active, for any store id and pathname. -/
theorem activeCount_le_one (s p : String) : activeCount s p ≤ 1 := by
  rw [activeCount_eq]
  exact List.nodup_iff_count_le_one.1 (hrefs_nodup s p) p

/-- An active route's href is exactly the current pathname. -/
theorem active_requires_eq (s p : String) (r : Route)
    (hr : r ∈ mainNavRoutes s p) (ha : r.active = true) : p = r.href := by
  fin_cases hr <;> simpa [beq_iff_eq] using ha

/-! ## Claim theorems -/

/-- C10: for every pathname and non-empty storeId, at most one of the eight
routes produced by the navigation menu has its active flag set, because
active requires exact string equality of the pathname with that route's
href and the eight hrefs are pairwise distinct; in particular no menu entry
of a sub-route pathname is active. -/
theorem C10_at_most_one_active_route (storeId pathname : String)
    (h : storeId ≠ "") :
    activeCount storeId pathname ≤ 1 ∧
    ((mainNavRoutes storeId pathname).map Route.href).Nodup ∧
    ∀ r ∈ mainNavRoutes storeId pathname, r.active = true →
      pathname = r.href :=
  ⟨activeCount_le_one storeId pathname, hrefs_nodup storeId pathname,
   active_requires_eq storeId pathname⟩

/-- Witness for C10 at a concrete sub-route pathname: the hypothesis holds
at storeId `"s1"` and the conclusion follows from the theorem. -/
theorem C10_witness :
    activeCount "s1" "/s1/billboards/abc123" ≤ 1 ∧
    ((mainNavRoutes "s1" "/s1/billboards/abc123").map Route.href).Nodup ∧
    ∀ r ∈ mainNavRoutes "s1" "/s1/billboards/abc123", r.active = true →
      "/s1/billboards/abc123" = r.href :=
  C10_at_most_one_active_route "s1" "/s1/billboards/abc123" (by decide)

/-- C1 counterexample: the product form's `onDelete` failure path shows
exactly the generic failure notification `"Ada sesuatu yang salah"` — the
same string its `onSubmit` failure path uses — not a domain-specific
dependent-records message. -/
theorem C1_counterexample :
    (productDeleteEvents "store1" "prod1" .failure).filter Event.isErrorToast
      = [.toastError genericErrorMsg] ∧
    (productSubmitEvents "store1" "prod1" none (productDefaultValues none)
        .failure).filter Event.isErrorToast
      = [.toastError genericErrorMsg] ∧
    genericErrorMsg ≠ categoryDeleteDepMsg ∧
    genericErrorMsg ≠ colorDeleteDepMsg :=
  ⟨rfl, rfl, by decide, by decide⟩

/-- C1 (amended): the category form delete and the color row delete show
domain-specific dependent-records messages on failure, distinct from the
generic failure notification; the product form delete shows the generic
notification instead. -/
theorem C1_delete_failure_messages (s cid colorId pid : String) :
    (categoryDeleteEvents s cid .failure).filter Event.isErrorToast
      = [.toastError categoryDeleteDepMsg] ∧
    (colorCellDeleteEvents s colorId .failure).filter Event.isErrorToast
      = [.toastError colorDeleteDepMsg] ∧
    categoryDeleteDepMsg ≠ genericErrorMsg ∧
    colorDeleteDepMsg ≠ genericErrorMsg ∧
    (productDeleteEvents s pid .failure).filter Event.isErrorToast
      = [.toastError genericErrorMsg] :=
  ⟨rfl, rfl, by decide, by decide, rfl⟩

/-- A product form input whose price field coerces to 1/2: positive, but
below the schema's minimum of 1. -/
def halfPriceInput : RawProductInput :=
  { name := "Paracetamol", images := [], price := some ((1 : ℚ)/2),
    categoryId := "cat1", colorId := "col1", sizeId := "siz1",
    isFeatured := none, isArchived := none }

/-- C2 counterexample: `halfPriceInput`'s price input coerces to the
positive number 1/2, yet client-side validation rejects it
(`z.coerce.number().min(1)` demands at least 1, not merely positive). -/
theorem C2_counterexample :
    (0 : ℚ) < 1/2 ∧
    halfPriceInput.price = some ((1 : ℚ)/2) ∧
    formSchemaErrors halfPriceInput = ["price"] ∧
    formSchemaParse halfPriceInput = none := by
  have hlt : ¬((1 : ℚ) ≤ 1/2) := by norm_num
  have hpc : priceCheck (some ((1 : ℚ)/2)) = false := decide_eq_false hlt
  have h3 : formSchemaErrors halfPriceInput = ["price"] := by
    unfold halfPriceInput formSchemaErrors
    rw [hpc]
    decide
  have h4 : formSchemaParse halfPriceInput = none := by
    unfold formSchemaParse
    rw [h3]
    rfl
  exact ⟨by norm_num, rfl, h3, h4⟩

/-- The price rule holds exactly when the coercion yields a number that is
at least 1. -/
theorem priceCheck_iff (v : Option ℚ) :
    priceCheck v = true ↔ ∃ q, v = some q ∧ 1 ≤ q := by
  cases v <;> simp [priceCheck]

/-- C2 (amended): client-side validation accepts the price field exactly
when the input coerces to a number that is at least 1 (not merely
positive): the schema records no price error precisely in that case. -/
theorem C2_price_validation_iff (i : RawProductInput) :
    "price" ∉ formSchemaErrors i ↔ ∃ q, i.price = some q ∧ 1 ≤ q := by
  rw [← priceCheck_iff]
  unfold formSchemaErrors
  split_ifs with h1 h2 h3 h4 h5 <;> simp_all

/-- C3 counterexample: a successful color row delete performs no navigation
at all — its events contain a `router.refresh` but no `router.push` to the
colors list route. -/
theorem C3_counterexample :
    (colorCellDeleteEvents "store1" "color1" .success).filter Event.isPush
      = [] ∧
    Event.refresh ∈ colorCellDeleteEvents "store1" "color1" .success := by
  refine ⟨rfl, by decide⟩

/-- C3 (amended): for the product and category forms, a successful submit
or delete emits exactly one navigation, to the resource's list route, and a
failed one emits none; the color row delete never navigates (it refreshes
the list in place); no handler ever mutates entered field state, so on
failure the entered values remain unchanged. -/
theorem C3_navigation_per_outcome (s pid cid colorId : String)
    (initP : Option ProductWithImages) (initC : Option Category)
    (dp : ProductFormValues) (dc : CategoryFormValues) (o : Outcome) :
    (productSubmitEvents s pid initP dp .success).filter Event.isPush
      = [.push ("/" ++ s ++ "/products")] ∧
    (productSubmitEvents s pid initP dp .failure).filter Event.isPush = [] ∧
    (productDeleteEvents s pid .success).filter Event.isPush
      = [.push ("/" ++ s ++ "/products")] ∧
    (productDeleteEvents s pid .failure).filter Event.isPush = [] ∧
    (categorySubmitEvents s cid initC dc .success).filter Event.isPush
      = [.push ("/" ++ s ++ "/categories")] ∧
    (categorySubmitEvents s cid initC dc .failure).filter Event.isPush = [] ∧
    (categoryDeleteEvents s cid .success).filter Event.isPush
      = [.push ("/" ++ s ++ "/categories")] ∧
    (categoryDeleteEvents s cid .failure).filter Event.isPush = [] ∧
    (colorCellDeleteEvents s colorId o).filter Event.isPush = [] ∧
    (productSubmitEvents s pid initP dp o).filter Event.isSetField = [] ∧
    (categorySubmitEvents s cid initC dc o).filter Event.isSetField = [] ∧
    (productDeleteEvents s pid o).filter Event.isSetField = [] ∧
    (categoryDeleteEvents s cid o).filter Event.isSetField = [] ∧
    (colorCellDeleteEvents s colorId o).filter Event.isSetField = [] := by
  cases initP <;> cases initC <;> cases o <;>
    exact ⟨rfl, rfl, rfl, rfl, rfl, rfl, rfl, rfl, rfl, rfl, rfl, rfl, rfl,
      rfl⟩

/-- C4 counterexample: the product form's `isFeatured` checkbox is a field
control with no `disabled={loading}` binding, so it stays enabled while the
loading flag is set — the claim's "all field controls are disabled" fails. -/
theorem C4_counterexample :
    (⟨"isFeaturedCheckbox", false, false⟩ : Control) ∈ productFormControls ∧
    controlDisabled ⟨"isFeaturedCheckbox", false, false⟩ true = false ∧
    (⟨"isArchivedCheckbox", false, false⟩ : Control) ∈ productFormControls ∧
    controlDisabled ⟨"isArchivedCheckbox", false, false⟩ true = false := by
  decide

/-- C4 (amended): while the loading flag is set, the submit control and
every field control except the `isFeatured`/`isArchived` checkboxes are
disabled; since those checkboxes cannot start a create/update/delete call,
every control that can fire a mutating request is disabled while one is
pending, so at most one mutating request is in flight per form instance. -/
theorem C4_disabled_while_loading :
    (productFormControls.all fun c =>
      c.cname == "isFeaturedCheckbox" || c.cname == "isArchivedCheckbox" ||
        controlDisabled c true) = true ∧
    (productFormControls.all fun c =>
      !c.firesRequest || controlDisabled c true) = true ∧
    (categoryFormControls.all fun c => controlDisabled c true) = true := by
  decide

/-- If any required product field is empty or the price fails coercion,
the schema records at least one field error. -/
theorem formSchemaErrors_ne_nil {i : RawProductInput}
    (h : i.name = "" ∨ i.categoryId = "" ∨ i.colorId = "" ∨ i.sizeId = "" ∨
      i.price = none) :
    formSchemaErrors i ≠ [] := by
  rcases h with h | h | h | h | h <;>
    simp [formSchemaErrors, h, priceCheck, List.append_eq_nil]

/-- A schema error means the zod parse fails. -/
theorem formSchemaParse_eq_none {i : RawProductInput}
    (h : formSchemaErrors i ≠ []) : formSchemaParse i = none := by
  unfold formSchemaParse
  cases hp : i.price <;> cases he : formSchemaErrors i <;> simp_all

/-- If any required category field is empty, the schema records at least
one field error. -/
theorem categorySchemaErrors_ne_nil {i : RawCategoryInput}
    (h : i.name = "" ∨ i.billboardId = "") :
    categorySchemaErrors i ≠ [] := by
  rcases h with h | h <;>
    simp [categorySchemaErrors, h, List.append_eq_nil]

/-- A schema error means the category zod parse fails. -/
theorem categorySchemaParse_eq_none {i : RawCategoryInput}
    (h : categorySchemaErrors i ≠ []) : categorySchemaParse i = none := by
  unfold categorySchemaParse
  cases he : categorySchemaErrors i <;> simp_all

/-- C5: whenever a required field is empty (empty name, empty reference
identifier) or the price fails coercion, the submit handler is not invoked
and no network request is issued — the attempt is blocked with field-level
messages only.  This holds for the product form and the category form. -/
theorem C5_validation_blocks (i : RawProductInput) (j : RawCategoryInput)
    (s pid cid : String) (initP : Option ProductWithImages)
    (initC : Option Category) (o o2 : Outcome)
    (hi : i.name = "" ∨ i.categoryId = "" ∨ i.colorId = "" ∨ i.sizeId = "" ∨
      i.price = none)
    (hj : j.name = "" ∨ j.billboardId = "") :
    handleSubmitProduct i s pid initP o = .blocked (formSchemaErrors i) ∧
    formSchemaErrors i ≠ [] ∧
    (∀ es, handleSubmitProduct i s pid initP o ≠ .ran es) ∧
    handleSubmitCategory j s cid initC o2
      = .blocked (categorySchemaErrors j) ∧
    categorySchemaErrors j ≠ [] ∧
    (∀ es, handleSubmitCategory j s cid initC o2 ≠ .ran es) := by
  have hpe := formSchemaErrors_ne_nil hi
  have hce := categorySchemaErrors_ne_nil hj
  have hp : handleSubmitProduct i s pid initP o
      = .blocked (formSchemaErrors i) := by
    unfold handleSubmitProduct
    rw [formSchemaParse_eq_none hpe]
  have hc : handleSubmitCategory j s cid initC o2
      = .blocked (categorySchemaErrors j) := by
    unfold handleSubmitCategory
    rw [categorySchemaParse_eq_none hce]
  refine ⟨hp, hpe, ?_, hc, hce, ?_⟩
  · intro es hcon
    rw [hp] at hcon
    exact SubmitResult.noConfusion hcon
  · intro es hcon
    rw [hc] at hcon
    exact SubmitResult.noConfusion hcon

/-- A product form input with an empty name (all other fields valid). -/
def emptyNameInput : RawProductInput :=
  { name := "", images := [], price := some 10, categoryId := "cat1",
    colorId := "col1", sizeId := "siz1", isFeatured := none,
    isArchived := none }

/-- A category form input with an empty name. -/
def emptyNameCategoryInput : RawCategoryInput :=
  { name := "", billboardId := "b1" }

/-- Witness for C5 at concrete empty-name inputs. -/
theorem C5_witness :
    handleSubmitProduct emptyNameInput "s1" "p1" none .success
      = .blocked (formSchemaErrors emptyNameInput) ∧
    formSchemaErrors emptyNameInput ≠ [] ∧
    (∀ es, handleSubmitProduct emptyNameInput "s1" "p1" none .success
      ≠ .ran es) ∧
    handleSubmitCategory emptyNameCategoryInput "s1" "c1" none .success
      = .blocked (categorySchemaErrors emptyNameCategoryInput) ∧
    categorySchemaErrors emptyNameCategoryInput ≠ [] ∧
    (∀ es, handleSubmitCategory emptyNameCategoryInput "s1" "c1" none
      .success ≠ .ran es) :=
  C5_validation_blocks emptyNameInput emptyNameCategoryInput "s1" "p1" "c1"
    none none .success .success (Or.inl rfl) (Or.inl rfl)

/-- C6: a non-null initialData selects edit mode, a null one create mode:
title, description, success toast and submit label depend only on the
nullability of initialData; edit mode issues a PATCH to the record URL and
pre-populates fields from initialData; create mode issues a POST to the
collection URL with empty defaults.  This holds for the product and
category forms. -/
theorem C6_mode_selection :
    (∀ i₁ i₂ : Option ProductWithImages, i₁.isSome = i₂.isSome →
      productTitle i₁ = productTitle i₂ ∧
      productDescription i₁ = productDescription i₂ ∧
      productToastMessage i₁ = productToastMessage i₂ ∧
      productAction i₁ = productAction i₂) ∧
    (∀ i₁ i₂ : Option Category, i₁.isSome = i₂.isSome →
      categoryTitle i₁ = categoryTitle i₂ ∧
      categoryDescription i₁ = categoryDescription i₂ ∧
      categoryToastMessage i₁ = categoryToastMessage i₂ ∧
      categoryAction i₁ = categoryAction i₂) ∧
    (∀ (s pid : String) (d : ProductWithImages) (dat : ProductFormValues)
      (o : Outcome),
      (productSubmitEvents s pid (some d) dat o).filter Event.isRequest
        = [.request .patch ("/api/" ++ s ++ "/products/" ++ pid)
            (.productBody dat)]) ∧
    (∀ (s pid : String) (dat : ProductFormValues) (o : Outcome),
      (productSubmitEvents s pid none dat o).filter Event.isRequest
        = [.request .post ("/api/" ++ s ++ "/products")
            (.productBody dat)]) ∧
    (∀ d : ProductWithImages, productDefaultValues (some d) =
      { name := d.name, images := d.images, price := d.price,
        categoryId := d.categoryId, colorId := d.colorId,
        sizeId := d.sizeId, isFeatured := some d.isFeatured,
        isArchived := some d.isArchived }) ∧
    productDefaultValues none =
      { name := "", images := [], price := 0, categoryId := "",
        colorId := "", sizeId := "", isFeatured := some false,
        isArchived := some false } ∧
    (∀ (s cid : String) (d : Category) (dat : CategoryFormValues)
      (o : Outcome),
      (categorySubmitEvents s cid (some d) dat o).filter Event.isRequest
        = [.request .patch ("/api/" ++ s ++ "/categories/" ++ cid)
            (.categoryBody dat)]) ∧
    (∀ (s cid : String) (dat : CategoryFormValues) (o : Outcome),
      (categorySubmitEvents s cid none dat o).filter Event.isRequest
        = [.request .post ("/api/" ++ s ++ "/categories")
            (.categoryBody dat)]) ∧
    (∀ d : Category, categoryDefaultValues (some d)
      = { name := d.name, billboardId := d.billboardId }) ∧
    categoryDefaultValues none = { name := "", billboardId := "" } := by
  refine ⟨?_, ?_, ?_, ?_, fun d => rfl, rfl, ?_, ?_, fun d => rfl, rfl⟩
  · intro i₁ i₂ h
    cases i₁ <;> cases i₂ <;> simp_all [productTitle, productDescription,
      productToastMessage, productAction]
  · intro i₁ i₂ h
    cases i₁ <;> cases i₂ <;> simp_all [categoryTitle, categoryDescription,
      categoryToastMessage, categoryAction]
  · intro s pid d dat o
    cases o <;> rfl
  · intro s pid dat o
    cases o <;> rfl
  · intro s cid d dat o
    cases o <;> rfl
  · intro s cid dat o
    cases o <;> rfl

/-- Witness for C6 at concrete records: the label-congruence conjuncts
applied to two distinct non-null products and categories. -/
theorem C6_witness :
    productTitle (some sampleProduct) = productTitle (some sampleProduct2) ∧
    productDescription (some sampleProduct)
      = productDescription (some sampleProduct2) ∧
    productToastMessage (some sampleProduct)
      = productToastMessage (some sampleProduct2) ∧
    productAction (some sampleProduct) = productAction (some sampleProduct2) :=
  C6_mode_selection.1 (some sampleProduct) (some sampleProduct2) rfl

/-- C7: for every submit or delete attempt, on success and on failure
alike, the loading flag ends false (the `finally` cleanup is the last thing
each handler does), and delete flows additionally close the confirmation
modal; replaying any handler's events leaves `loading = false`, so no
failure leaves the form disabled. -/
theorem C7_cleanup_always_runs (s pid cid colorId : String)
    (initP : Option ProductWithImages) (initC : Option Category)
    (dp : ProductFormValues) (dc : CategoryFormValues) (o : Outcome)
    (st : FormState) :
    (runEvents st (productSubmitEvents s pid initP dp o)).loading = false ∧
    (productSubmitEvents s pid initP dp o).getLast?
      = some (.setLoading false) ∧
    (runEvents st (productDeleteEvents s pid o)).loading = false ∧
    (runEvents st (productDeleteEvents s pid o)).isOpen = false ∧
    (productDeleteEvents s pid o).getLast? = some (.setOpen false) ∧
    (productDeleteEvents s pid o).dropLast.getLast?
      = some (.setLoading false) ∧
    (runEvents st (categorySubmitEvents s cid initC dc o)).loading = false ∧
    (categorySubmitEvents s cid initC dc o).getLast?
      = some (.setLoading false) ∧
    (runEvents st (categoryDeleteEvents s cid o)).loading = false ∧
    (runEvents st (categoryDeleteEvents s cid o)).isOpen = false ∧
    (categoryDeleteEvents s cid o).getLast? = some (.setOpen false) ∧
    (categoryDeleteEvents s cid o).dropLast.getLast?
      = some (.setLoading false) ∧
    (runEvents st (colorCellDeleteEvents s colorId o)).loading = false ∧
    (runEvents st (colorCellDeleteEvents s colorId o)).isOpen = false ∧
    (colorCellDeleteEvents s colorId o).getLast? = some (.setOpen false) ∧
    (colorCellDeleteEvents s colorId o).dropLast.getLast?
      = some (.setLoading false) := by
  cases initP <;> cases initC <;> cases o <;>
    exact ⟨rfl, rfl, rfl, rfl, rfl, rfl, rfl, rfl, rfl, rfl, rfl, rfl, rfl,
      rfl, rfl, rfl⟩

/-- C8: submitting the category create form (null initialData) with
name "Vitamins" and a billboardId issues exactly one request — a POST to
the categories collection URL with body (name, billboardId) — and on
success exactly one navigation, to the categories list route, which comes
after the request. -/
theorem C8_create_category_vitamins (s cid b : String) :
    (categorySubmitEvents s cid none ⟨"Vitamins", b⟩ .success).filter
      Event.isRequest
      = [.request .post ("/api/" ++ s ++ "/categories")
          (.categoryBody ⟨"Vitamins", b⟩)] ∧
    (categorySubmitEvents s cid none ⟨"Vitamins", b⟩ .success).filter
      Event.isPush
      = [.push ("/" ++ s ++ "/categories")] ∧
    categorySubmitEvents s cid none ⟨"Vitamins", b⟩ .success
      = [.setLoading true,
         .request .post ("/api/" ++ s ++ "/categories")
           (.categoryBody ⟨"Vitamins", b⟩),
         .refresh, .push ("/" ++ s ++ "/categories"),
         .toastSuccess "Kategori berhasil dibuat", .setLoading false] :=
  ⟨rfl, rfl, rfl⟩

/-- A fully valid product input whose images list is empty. -/
def noImagesInput : RawProductInput :=
  { name := "Vitamin C", images := [], price := some 10,
    categoryId := "cat1", colorId := "col1", sizeId := "siz1",
    isFeatured := none, isArchived := none }

/-- C9: the product form schema places no minimum length on the images
list: validation is entirely independent of the images field, and the
concrete input `noImagesInput` with zero image references passes
validation and reaches the network layer. -/
theorem C9_images_no_minimum :
    (∀ (i : RawProductInput) (imgs : List Image),
      formSchemaErrors { i with images := imgs } = formSchemaErrors i) ∧
    noImagesInput.images = [] ∧
    formSchemaErrors noImagesInput = [] ∧
    (∃ es, handleSubmitProduct noImagesInput "s1" "p1" none .success
      = .ran es ∧ es.filter Event.isRequest ≠ []) := by
  refine ⟨fun i imgs => rfl, rfl, ?_, ?_⟩
  · decide
  · exact ⟨_, rfl, by decide⟩

end AlineAdmin
